import Mathlib

/-!
Shallow embedding of `src/binance/websockets.py` (classes `ReconnectingWebsocket`
and `BinanceSocketManager`).

Modelling conventions:
* Caller-supplied message handlers (`coro` / `callback`, Python callables) are
  opaque and represented by natural-number identifiers.  Whether a handler
  raises on a given decoded document is an explicit parameter
  `handlerRaises : ℕ → Bool`, and `orjson.loads` (an external library) is an
  explicit parameter `decode : String → Option ℕ` returning the decoded
  document (`none` models `orjson.JSONDecodeError`).
* Python floats are modelled as rationals; the single `random()` draw made by
  `_get_reconnect_wait` is passed in as an explicit argument `r : ℚ`.
* The mutable attributes of each Python object become fields of a state
  structure, and each method becomes a state-passing function that additionally
  reports its externally visible effects (sessions cancelled, listen keys
  revoked via `client.stream_close`, timer cancellations, scheduled tasks).
* `self._conns` is a Python dict with string keys; it is modelled as an
  insertion-ordered association list (`dictFind` / `dictErase` below model
  `in`/`[]` lookup and `del`).
-/

/-- ReconnectingWebsocket.MAX_RECONNECTS (= 20). -/
def MAX_RECONNECTS : ℕ := 20

/-- ReconnectingWebsocket.MAX_RECONNECT_SECONDS (= 60). -/
def MAX_RECONNECT_SECONDS : ℤ := 60

/-- Python's built-in `round` on a rational: round half to even.
`q.num / q.den` is floor division, i.e. `⌊q⌋` (see `Rat.floor_def`). -/
def pyround (q : ℚ) : ℤ :=
  let n : ℤ := q.num / (q.den : ℤ)
  let f := q - (n : ℚ)
  if f < 1/2 then n
  else if 1/2 < f then n + 1
  else if n % 2 = 0 then n else n + 1

/-- `ReconnectingWebsocket._get_reconnect_wait(attempts)`:
`round(random() * min(MAX_RECONNECT_SECONDS, 2 ** attempts - 1) + 1)`,
with the `random()` draw passed in as `r`. -/
def _get_reconnect_wait (r : ℚ) (attempts : ℕ) : ℤ :=
  let expo : ℤ := 2 ^ attempts
  pyround (r * ((min MAX_RECONNECT_SECONDS (expo - 1) : ℤ) : ℚ) + 1)

/-- Mutable state of one `ReconnectingWebsocket` instance.
`connTask` models whether `self._conn` currently refers to a scheduled/running
connect task; `socketOpen` models whether `self._socket` is set to an open
transport (it is `None`, i.e. `false` here, while disconnected). -/
structure ReconnectingWebsocket where
  path : String
  coro : Option ℕ
  urlPre : String
  reconnects : ℕ
  connTask : Bool
  socketOpen : Bool
deriving DecidableEq

/-- `ReconnectingWebsocket.__init__`: stores path/handler/url piece, sets
`_reconnects = 0`, and immediately calls `self._connect()`, scheduling the
first connect task (`connTask := true`); no transport is open yet. -/
def ReconnectingWebsocket.init (path : String) (coro : Option ℕ) (urlPre : String) :
    ReconnectingWebsocket :=
  { path := path, coro := coro, urlPre := urlPre,
    reconnects := 0, connTask := true, socketOpen := false }

/-- Immediate state effect of `ReconnectingWebsocket.cancel()` as seen by its
caller: the transport (if any) is closed and `self._socket` is cleared. -/
def ReconnectingWebsocket.cancel (s : ReconnectingWebsocket) : ReconnectingWebsocket :=
  { s with socketOpen := false }

/-- Externally visible effects of one run of `_reconnect`. -/
structure ReconnectEff where
  scheduledConnect : Bool
  loggedTerminal : Bool
  backoffWait : Option ℤ
deriving DecidableEq

/-- `ReconnectingWebsocket._reconnect()`: first `await self.cancel()`, then
increment `self._reconnects`; if the incremented counter is below
`MAX_RECONNECTS`, sleep a randomized backoff and schedule a fresh connect task
via `self._connect()`; otherwise only log "Max reconnections reached". -/
def _reconnect (s : ReconnectingWebsocket) (r : ℚ) :
    ReconnectingWebsocket × ReconnectEff :=
  let s1 := s.cancel
  let n := s1.reconnects + 1
  if n < MAX_RECONNECTS then
    ({ s1 with reconnects := n, connTask := true },
     { scheduledConnect := true, loggedTerminal := false,
       backoffWait := some (_get_reconnect_wait r n) })
  else
    ({ s1 with reconnects := n, connTask := false },
     { scheduledConnect := false, loggedTerminal := true, backoffWait := none })

/-- The exception classes distinguished by the `try/except` around `_run`'s
body: `socket.gaierror`, `asyncio.CancelledError`, `ConnectionClosed`, and the
catch-all `Exception`. -/
inductive RunExc
  | gaierror
  | cancelledError
  | connectionClosed
  | otherExc
deriving DecidableEq

/-- The four `except` clauses at the end of `ReconnectingWebsocket._run`:
every one of them (including the `asyncio.CancelledError` clause) logs and
then runs `await self._reconnect()`. -/
def _run_except (e : RunExc) (s : ReconnectingWebsocket) (r : ℚ) :
    ReconnectingWebsocket × ReconnectEff :=
  match e with
  | .gaierror => _reconnect s r
  | .cancelledError => _reconnect s r
  | .connectionClosed => _reconnect s r
  | .otherExc => _reconnect s r

/-- One observable event of the receive loop: either `recv` yields a frame
body, or it times out / reports closure and the subsequent ping either is
acknowledged in time (`timeoutPongOk`) or fails (`timeoutPingFail`, in which
case the original exception is re-raised out of the loop). -/
inductive RecvEvent
  | frame (body : String)
  | timeoutPongOk
  | timeoutPingFail
deriving DecidableEq

/-- Observable per-connection trace of the receive loop: documents passed to
the handler (in order), number of decode errors logged, number of successful
liveness probes. -/
structure LoopTrace where
  invoked : List ℕ
  decodeErrors : ℕ
  pingOks : ℕ
deriving DecidableEq

/-- How the receive loop can terminate abnormally: the liveness probe failed
(re-raising the pending timeout/closure exception), or the caller-supplied
handler raised while processing document `doc`. -/
inductive LoopExit
  | pingFail
  | handlerExc (doc : ℕ)
deriving DecidableEq

/-- The `while keep_waiting:` receive loop of `ReconnectingWebsocket._run`,
applied to a queue of events.  A frame whose body fails `orjson.loads` only
logs and continues; a decoded document is passed to the handler, and a raising
handler aborts the loop.  An exhausted queue (`[]`) means the loop is still
waiting on the same connection. -/
def recvLoop (decode : String → Option ℕ) (handlerRaises : ℕ → Bool) :
    List RecvEvent → LoopTrace → LoopTrace × Option LoopExit
  | [], t => (t, none)
  | RecvEvent.timeoutPongOk :: rest, t =>
      recvLoop decode handlerRaises rest { t with pingOks := t.pingOks + 1 }
  | RecvEvent.timeoutPingFail :: _rest, t => (t, some LoopExit.pingFail)
  | RecvEvent.frame b :: rest, t =>
      match decode b with
      | none =>
          recvLoop decode handlerRaises rest { t with decodeErrors := t.decodeErrors + 1 }
      | some d =>
          if handlerRaises d then
            ({ t with invoked := t.invoked ++ [d] }, some (LoopExit.handlerExc d))
          else
            recvLoop decode handlerRaises rest { t with invoked := t.invoked ++ [d] }

/-- State update at the top of `_run`'s `async with connect(...)` block after a
successful connect: `self._socket = _socket; self._reconnects = 0`. -/
def on_connect (s : ReconnectingWebsocket) : ReconnectingWebsocket :=
  { s with socketOpen := true, reconnects := 0 }

/-- Which `except` clause catches an exception escaping the receive loop:
a failed probe re-raises the pending timeout/closure exception (caught by the
`ConnectionClosed` or catch-all clause), a raising handler propagates its own
exception (catch-all clause).  Both routes run `_reconnect`. -/
def loopExcKind : LoopExit → RunExc
  | .pingFail => RunExc.connectionClosed
  | .handlerExc _ => RunExc.otherExc

/-- `ReconnectingWebsocket._run` for one connect attempt that opens the
transport and then processes `events`: connect succeeds (counter reset to 0),
the receive loop runs, and if an exception escapes the loop the `async with`
closes the transport and the matching `except` clause runs `_reconnect`
(effects reported as `some eff`); if the queue is exhausted the session is
still connected and waiting (`none`). -/
def _run (decode : String → Option ℕ) (handlerRaises : ℕ → Bool)
    (s : ReconnectingWebsocket) (events : List RecvEvent) (r : ℚ) :
    ReconnectingWebsocket × LoopTrace × Option ReconnectEff :=
  let s1 := on_connect s
  let res := recvLoop decode handlerRaises events
    { invoked := [], decodeErrors := 0, pingOks := 0 }
  match res.2 with
  | none => (s1, res.1, none)
  | some ex =>
      let r2 := _run_except (loopExcKind ex) { s1 with socketOpen := false } r
      (r2.1, res.1, some r2.2)

/-- Session state after one failed connect attempt ending in exception `e`
(the matching `except` clause runs `_reconnect`). -/
def failedAttempt (r : ℚ) (s : ReconnectingWebsocket) (e : RunExc) :
    ReconnectingWebsocket :=
  (_run_except e s r).1

/-- Mutable state of one `BinanceSocketManager` instance: the `self._conns`
dict, and the module-level user-stream state (`self._user_timer` as "a timer
handle is set", `self._user_listen_key`, `self._user_callback`). -/
structure BinanceSocketManager where
  conns : List (String × ReconnectingWebsocket)
  user_timer : Bool
  user_listen_key : Option String
  user_callback : Option ℕ
deriving DecidableEq

/-- Externally visible effects of a manager operation: sessions on which
`cancel()` was invoked (with their post-cancel state), listen keys revoked via
`client.stream_close`, and how many times a renewal timer was cancelled. -/
structure Eff where
  cancelled : List (String × ReconnectingWebsocket)
  revoked : List String
  timerCancels : ℕ
deriving DecidableEq

/-- No effects. -/
def Eff.empty : Eff := { cancelled := [], revoked := [], timerCancels := 0 }

/-- Sequencing of effects. -/
def Eff.app (a b : Eff) : Eff :=
  { cancelled := a.cancelled ++ b.cancelled, revoked := a.revoked ++ b.revoked,
    timerCancels := a.timerCancels + b.timerCancels }

/-- Dict lookup (`path in self._conns` / `self._conns[path]`). -/
def dictFind : List (String × ReconnectingWebsocket) → String → Option ReconnectingWebsocket
  | [], _ => none
  | (k', v) :: t, k => if k' = k then some v else dictFind t k

/-- Dict entry removal (`del self._conns[conn_key]`); dict keys are unique, so
removing every pair with the given key models `del`. -/
def dictErase : List (String × ReconnectingWebsocket) → String →
    List (String × ReconnectingWebsocket)
  | [], _ => []
  | (k', v) :: t, k => if k' = k then dictErase t k else (k', v) :: dictErase t k

/-- `BinanceSocketManager._start_socket(path, coro, prefix)`: if `path` is
already in `self._conns`, return `None`; otherwise construct a
`ReconnectingWebsocket` (which schedules its first connect), register it under
`path`, and return `path`. -/
def _start_socket (st : BinanceSocketManager) (path : String) (coro : Option ℕ)
    (urlPre : String) : BinanceSocketManager × Option String :=
  if (dictFind st.conns path).isSome then (st, none)
  else
    ({ st with conns := st.conns ++ [(path, ReconnectingWebsocket.init path coro urlPre)] },
     some path)

/-- ASCII lowercasing of one character, as Python's `str.lower()` acts on the
ASCII market symbols used for stream names. -/
def lowerChar (c : Char) : Char :=
  if c.toNat ≥ 65 ∧ c.toNat ≤ 90 then Char.ofNat (c.toNat + 32) else c

/-- Python's `symbol.lower()` for ASCII symbols. -/
def lowerStr (s : String) : String := String.mk (s.data.map lowerChar)

/-- `BinanceSocketManager.start_trade_socket(symbol, coro)`: build the path
`symbol.lower() + "@trade"`, call `_start_socket` (ignoring its result), and
return the path. -/
def start_trade_socket (st : BinanceSocketManager) (symbol : String) (coro : ℕ) :
    BinanceSocketManager × String :=
  let path := lowerStr symbol ++ "@trade"
  ((_start_socket st path (some coro) "ws/").1, path)

/-- `BinanceSocketManager._stop_user_socket()`: no-op when no listen key is
stored; otherwise cancel the renewal timer if one is set, clear the timer
handle, revoke the stored key via `client.stream_close`, and clear the key. -/
def _stop_user_socket (st : BinanceSocketManager) : BinanceSocketManager × Eff :=
  match st.user_listen_key with
  | none => (st, Eff.empty)
  | some k =>
      ({ st with user_timer := false, user_listen_key := none },
       { cancelled := [], revoked := [k],
         timerCancels := if st.user_timer then 1 else 0 })

/-- `BinanceSocketManager.stop_socket(conn_key)`: no-op if `conn_key` is not
registered; otherwise `cancel()` the session, delete the registry entry, and
if the key looks like the active listen key (length at least 60 and its first
60 characters equal `self._user_listen_key`) also run `_stop_user_socket`. -/
def stop_socket (st : BinanceSocketManager) (conn_key : String) :
    BinanceSocketManager × Eff :=
  match dictFind st.conns conn_key with
  | none => (st, Eff.empty)
  | some rw =>
      let st1 := { st with conns := dictErase st.conns conn_key }
      let e1 : Eff := { cancelled := [(conn_key, rw.cancel)], revoked := [], timerCancels := 0 }
      if 60 ≤ conn_key.length ∧ st1.user_listen_key = some (conn_key.take 60) then
        let r2 := _stop_user_socket st1
        (r2.1, e1.app r2.2)
      else (st1, e1)

/-- The `for conn_key in self._conns: ... break` scan in `_start_user_socket`:
first registered connection key of length at least 60 whose first 60
characters equal the stored listen key `k`. -/
def findUserConn : List (String × ReconnectingWebsocket) → String → Option String
  | [], _ => none
  | (k', _) :: t, k =>
      if 60 ≤ k'.length ∧ k'.take 60 = k then some k' else findUserConn t k

/-- `BinanceSocketManager._start_user_socket(user_listen_key, callback)`: if a
listen key is currently stored, stop the first registered connection matching
it (if any); then store the new key and callback, `_start_socket` under the
new key, and if that registered a fresh session re-arm the renewal timer. -/
def _start_user_socket (st : BinanceSocketManager) (user_listen_key : String)
    (callback : Option ℕ) : BinanceSocketManager × Eff × Option String :=
  let r1 :=
    match st.user_listen_key with
    | none => (st, Eff.empty)
    | some k =>
        match findUserConn st.conns k with
        | none => (st, Eff.empty)
        | some ck => stop_socket st ck
  let st2 := { r1.1 with user_listen_key := some user_listen_key, user_callback := callback }
  let r3 := _start_socket st2 user_listen_key callback "ws/"
  let st4 := if r3.2.isSome then { r3.1 with user_timer := true } else r3.1
  (st4, r1.2, r3.2)

/-- Body of `BinanceSocketManager._keepalive_user_socket` once the renewal
timer fires, with the fresh key returned by `client.stream_get_listen_key()`
passed in: if the fresh key differs from the stored one, rotate via
`_start_user_socket`; otherwise only re-arm the timer. -/
def _keepalive_user_socket (st : BinanceSocketManager) (freshKey : String) :
    BinanceSocketManager × Eff :=
  if some freshKey ≠ st.user_listen_key then
    let r := _start_user_socket st freshKey st.user_callback
    (r.1, r.2.1)
  else ({ st with user_timer := true }, Eff.empty)

/-- The `for key in keys: await self.stop_socket(key)` loop of
`BinanceSocketManager.close`, over the snapshotted key list. -/
def stopAll : BinanceSocketManager → List String → BinanceSocketManager × Eff
  | st, [] => (st, Eff.empty)
  | st, k :: ks =>
      let r1 := stop_socket st k
      let r2 := stopAll r1.1 ks
      (r2.1, r1.2.app r2.2)

/-- `BinanceSocketManager.close()`: snapshot the currently registered keys
(`keys = set(self._conns.keys())`), stop each of them, then reset
`self._conns = {}`. -/
def close (st : BinanceSocketManager) : BinanceSocketManager × Eff :=
  let r := stopAll st (st.conns.map Prod.fst)
  ({ r.1 with conns := [] }, r.2)

/-! ### Helper lemmas about Python rounding -/

/-- `pyround q` is `⌊q⌋`, or `⌊q⌋ + 1` and then the fractional part is at
least one half. -/
lemma pyround_eq_floor_or_succ (q : ℚ) :
    pyround q = ⌊q⌋ ∨ (pyround q = ⌊q⌋ + 1 ∧ 1/2 ≤ q - (⌊q⌋ : ℚ)) := by
  have hfl : q.num / (q.den : ℤ) = ⌊q⌋ := (Rat.floor_def).symm
  simp only [pyround, hfl]
  split_ifs with hf1 hf2 hf3
  · exact Or.inl rfl
  · exact Or.inr ⟨rfl, le_of_lt hf2⟩
  · exact Or.inl rfl
  · exact Or.inr ⟨rfl, le_of_not_lt hf1⟩

/-- Lower bound for `pyround` from an integer lower bound on the argument. -/
lemma le_pyround (a : ℤ) (q : ℚ) (h : (a : ℚ) ≤ q) : a ≤ pyround q := by
  have h1 : a ≤ ⌊q⌋ := Int.le_floor.mpr h
  rcases pyround_eq_floor_or_succ q with h2 | ⟨h2, _⟩ <;> omega

/-- Upper bound for `pyround` from an integer upper bound on the argument. -/
lemma pyround_le (b : ℤ) (q : ℚ) (h : q ≤ (b : ℚ)) : pyround q ≤ b := by
  have h1 : ⌊q⌋ ≤ b := by
    have h2 := Int.floor_le_floor h
    rwa [Int.floor_intCast] at h2
  rcases pyround_eq_floor_or_succ q with h2 | ⟨h2, h3⟩
  · omega
  · rcases lt_or_eq_of_le h1 with h4 | h4
    · omega
    · exfalso
      have h5 : q - (⌊q⌋ : ℚ) ≤ 0 := by
        rw [h4]
        linarith
      linarith

/-- Claim C4: for every attempt count `n` with `1 ≤ n < 20` and every random
draw `r ∈ [0,1]`, the backoff delay `round(r * min(60, 2^n - 1) + 1)` computed
by `_get_reconnect_wait` lies in the closed interval
`[1, min(60, 2^n - 1) + 1]` seconds. -/
theorem backoff_delay_bounds (attempts : ℕ) (r : ℚ)
    (h1 : 1 ≤ attempts) (h2 : attempts < 20) (hr0 : 0 ≤ r) (hr1 : r ≤ 1) :
    1 ≤ _get_reconnect_wait r attempts ∧
    _get_reconnect_wait r attempts ≤ min 60 ((2 : ℤ) ^ attempts - 1) + 1 := by
  have hpow : (2 : ℤ) ≤ 2 ^ attempts := by
    obtain ⟨m, rfl⟩ : ∃ m, attempts = m + 1 := ⟨attempts - 1, by omega⟩
    have h3 : (0 : ℤ) < 2 ^ m := pow_pos (by norm_num) m
    rw [pow_succ]
    nlinarith
  have hm : (1 : ℤ) ≤ min MAX_RECONNECT_SECONDS ((2 : ℤ) ^ attempts - 1) := by
    refine le_min (by norm_num [MAX_RECONNECT_SECONDS]) (by omega)
  have hmq : (0 : ℚ) ≤ ((min MAX_RECONNECT_SECONDS ((2 : ℤ) ^ attempts - 1) : ℤ) : ℚ) := by
    exact_mod_cast le_trans zero_le_one hm
  have hunfold : _get_reconnect_wait r attempts =
      pyround (r * ((min MAX_RECONNECT_SECONDS ((2 : ℤ) ^ attempts - 1) : ℤ) : ℚ) + 1) := rfl
  constructor
  · rw [hunfold]
    refine le_pyround 1 _ ?_
    have h3 : 0 ≤ r * ((min MAX_RECONNECT_SECONDS ((2 : ℤ) ^ attempts - 1) : ℤ) : ℚ) :=
      mul_nonneg hr0 hmq
    push_cast at h3 ⊢
    linarith
  · rw [hunfold]
    have h5 : r * ((min MAX_RECONNECT_SECONDS ((2 : ℤ) ^ attempts - 1) : ℤ) : ℚ) ≤
        ((min MAX_RECONNECT_SECONDS ((2 : ℤ) ^ attempts - 1) : ℤ) : ℚ) :=
      mul_le_of_le_one_left hmq hr1
    have h6 : r * ((min MAX_RECONNECT_SECONDS ((2 : ℤ) ^ attempts - 1) : ℤ) : ℚ) + 1 ≤
        ((min MAX_RECONNECT_SECONDS ((2 : ℤ) ^ attempts - 1) + 1 : ℤ) : ℚ) := by
      push_cast at h5 ⊢
      linarith
    have h4 := pyround_le _ _ h6
    simpa [MAX_RECONNECT_SECONDS] using h4

/-- Witness for claim C4's theorem at `attempts = 3`, `r = 1/2`:
the delay is between 1 and `min(60, 2^3 - 1) + 1 = 8`. -/
theorem backoff_delay_bounds_w :
    1 ≤ _get_reconnect_wait (1/2) 3 ∧
    _get_reconnect_wait (1/2) 3 ≤ min 60 ((2 : ℤ) ^ 3 - 1) + 1 :=
  backoff_delay_bounds 3 (1/2) (by norm_num) (by norm_num) (by norm_num) (by norm_num)

/-- Claim C5: `_reconnect` increments the attempt counter first, schedules a
new connect (after a backoff sleep) iff the incremented counter is strictly
below `MAX_RECONNECTS = 20`, and once the budget is exhausted it emits only
the terminal log, performs no backoff sleep, and leaves no connect task
scheduled. -/
theorem reconnect_budget_spec (s : ReconnectingWebsocket) (r : ℚ) :
    (_reconnect s r).1.reconnects = s.reconnects + 1 ∧
    ((_reconnect s r).2.scheduledConnect = true ↔ s.reconnects + 1 < MAX_RECONNECTS) ∧
    ((_reconnect s r).2.loggedTerminal = true ↔ ¬ s.reconnects + 1 < MAX_RECONNECTS) ∧
    ((_reconnect s r).2.scheduledConnect = false →
      (_reconnect s r).1.connTask = false ∧ (_reconnect s r).2.backoffWait = none) := by
  simp only [_reconnect, ReconnectingWebsocket.cancel]
  split_ifs with h <;> simp [h]

/-- Claim C6: whatever sequence of failed connect attempts preceded it, when a
connect attempt succeeds the state at entry of the receive loop (`on_connect`:
`self._socket = _socket; self._reconnects = 0`) has attempt counter exactly 0
and an open transport. -/
theorem reconnects_zero_after_connect (s : ReconnectingWebsocket) (r : ℚ)
    (excs : List RunExc) :
    (on_connect (excs.foldl (failedAttempt r) s)).reconnects = 0 ∧
    (on_connect (excs.foldl (failedAttempt r) s)).socketOpen = true := by
  simp [on_connect]

/-- Claim C1 is violated by the code: `_run`'s
`except asyncio.CancelledError` clause runs `await self._reconnect()`, so a
session whose task observes the cancellation raised by `cancel()` increments
its counter and schedules a fresh connect task (after the backoff sleep)
instead of staying down.  Evaluated at a concrete live session
(`btcusdt@trade`, counter 0, budget remaining): after the caller's `cancel()`
closes the transport, the task-side exception path reports
`scheduledConnect = true` and a live connect task. -/
theorem cancelled_session_reconnects :
    (_run_except RunExc.cancelledError
      (ReconnectingWebsocket.cancel
        { path := "btcusdt@trade", coro := some 0, urlPre := "ws/",
          reconnects := 0, connTask := true, socketOpen := true }) 0).2.scheduledConnect
        = true ∧
    (_run_except RunExc.cancelledError
      (ReconnectingWebsocket.cancel
        { path := "btcusdt@trade", coro := some 0, urlPre := "ws/",
          reconnects := 0, connTask := true, socketOpen := true }) 0).1.connTask = true := by
  constructor <;> rfl

/-- Claim C7: a received frame whose body fails to decode is logged and
dropped without invoking the handler, and the receive loop continues on the
same connection: the remaining events are processed from an otherwise
unchanged trace, and a decode failure alone never makes `_run` enter
`_reconnect` (no teardown, handler never invoked). -/
theorem decode_failure_nonfatal (decode : String → Option ℕ)
    (handlerRaises : ℕ → Bool) (b : String) (rest : List RecvEvent) (t : LoopTrace)
    (hd : decode b = none) :
    recvLoop decode handlerRaises (RecvEvent.frame b :: rest) t =
      recvLoop decode handlerRaises rest { t with decodeErrors := t.decodeErrors + 1 } ∧
    ∀ (s : ReconnectingWebsocket) (r : ℚ),
      (_run decode handlerRaises s [RecvEvent.frame b] r).2.2 = none ∧
      (_run decode handlerRaises s [RecvEvent.frame b] r).2.1.invoked = [] ∧
      (_run decode handlerRaises s [RecvEvent.frame b] r).1.socketOpen = true := by
  refine ⟨by simp [recvLoop, hd], fun s r => ?_⟩
  refine ⟨?_, ?_, ?_⟩ <;> simp [_run, recvLoop, hd, on_connect]

/-- A tiny concrete decoder for witnesses: it decodes only the body `"7"`. -/
def demoDecode (s : String) : Option ℕ := if s = "7" then some 7 else none

/-- Witness for claim C7's theorem: `demoDecode` fails on body `"x"`, so the
loop just counts one decode error and goes on. -/
theorem decode_failure_nonfatal_w :
    recvLoop demoDecode (fun _ => false)
        [RecvEvent.frame "x"] { invoked := [], decodeErrors := 0, pingOks := 0 } =
      recvLoop demoDecode (fun _ => false)
        [] { invoked := [], decodeErrors := 0 + 1, pingOks := 0 } :=
  (decode_failure_nonfatal demoDecode (fun _ => false) "x" []
    { invoked := [], decodeErrors := 0, pingOks := 0 } (by decide)).1

/-- Claim C8: when a frame decodes to a document on which the caller-supplied
handler raises, the session does not suppress the exception: the receive loop
stops right there (events after the fault are never processed), and `_run`
routes the escaping exception into its catch-all `except` clause, which runs
`_reconnect` on the closed-transport state. -/
theorem handler_fault_fatal (decode : String → Option ℕ) (handlerRaises : ℕ → Bool)
    (b : String) (d : ℕ) (rest : List RecvEvent) (t : LoopTrace)
    (hd : decode b = some d) (hf : handlerRaises d = true) :
    recvLoop decode handlerRaises (RecvEvent.frame b :: rest) t =
      ({ t with invoked := t.invoked ++ [d] }, some (LoopExit.handlerExc d)) ∧
    ∀ (s : ReconnectingWebsocket) (r : ℚ),
      (_run decode handlerRaises s (RecvEvent.frame b :: rest) r).2.2 =
        some (_run_except RunExc.otherExc
          { on_connect s with socketOpen := false } r).2 := by
  refine ⟨by simp [recvLoop, hd, hf], fun s r => ?_⟩
  simp [_run, recvLoop, hd, hf, loopExcKind]

/-- Witness for claim C8's theorem: the handler raises on document 7 decoded
from body `"7"`; the loop aborts with the handler fault even though another
frame is still queued. -/
theorem handler_fault_fatal_w :
    recvLoop demoDecode (fun _ => true)
        [RecvEvent.frame "7", RecvEvent.frame "8"]
        { invoked := [], decodeErrors := 0, pingOks := 0 } =
      ({ invoked := [] ++ [7], decodeErrors := 0, pingOks := 0 },
       some (LoopExit.handlerExc 7)) :=
  (handler_fault_fatal demoDecode (fun _ => true) "7" 7 [RecvEvent.frame "8"]
    { invoked := [], decodeErrors := 0, pingOks := 0 } (by decide) (by decide)).1

/-! ### Helper lemmas about the registry dict -/

/-- Looking up the erased key finds nothing. -/
lemma dictFind_erase_self (l : List (String × ReconnectingWebsocket)) (k : String) :
    dictFind (dictErase l k) k = none := by
  induction l with
  | nil => rfl
  | cons p t ih =>
      obtain ⟨a, v⟩ := p
      by_cases h : a = k <;> simp [dictErase, h, dictFind, ih]

/-- Erasing cannot make an absent key present. -/
lemma dictFind_erase_none (l : List (String × ReconnectingWebsocket)) (k k' : String)
    (h : dictFind l k' = none) : dictFind (dictErase l k) k' = none := by
  induction l with
  | nil => rfl
  | cons p t ih =>
      obtain ⟨a, v⟩ := p
      simp only [dictFind] at h
      by_cases h2 : a = k'
      · simp [h2] at h
      · rw [if_neg h2] at h
        by_cases h1 : a = k <;> simp [dictErase, h1, dictFind, h2, ih h]

/-- Lookup skips a first block that does not contain the key. -/
lemma dictFind_append_r (l₁ l₂ : List (String × ReconnectingWebsocket)) (k : String)
    (h : dictFind l₁ k = none) : dictFind (l₁ ++ l₂) k = dictFind l₂ k := by
  induction l₁ with
  | nil => rfl
  | cons p t ih =>
      obtain ⟨a, v⟩ := p
      simp only [dictFind] at h
      by_cases h2 : a = k
      · simp [h2] at h
      · rw [if_neg h2] at h
        simp only [List.cons_append, dictFind, if_neg h2]
        exact ih h

/-- Erasing a key that is not among the entries' keys changes nothing. -/
lemma dictErase_not_mem (l : List (String × ReconnectingWebsocket)) (k : String)
    (h : k ∉ l.map Prod.fst) : dictErase l k = l := by
  induction l with
  | nil => rfl
  | cons p t ih =>
      obtain ⟨a, v⟩ := p
      simp only [List.map_cons, List.mem_cons] at h
      push_neg at h
      have h1 : a ≠ k := fun he => h.1 he.symm
      simp [dictErase, h1, ih h.2]

/-- Claim C3: starting a stream whose identifier is already registered is a
no-op: `start_trade_socket` returns the manager state unchanged together with
the existing identifier, and the registry still maps that identifier to the
original session (so only the originally registered handler is ever
invoked). -/
theorem start_trade_socket_existing_noop (st : BinanceSocketManager) (symbol : String)
    (rw : ReconnectingWebsocket) (h2 : ℕ)
    (hmem : dictFind st.conns (lowerStr symbol ++ "@trade") = some rw) :
    start_trade_socket st symbol h2 = (st, lowerStr symbol ++ "@trade") ∧
    dictFind (start_trade_socket st symbol h2).1.conns (lowerStr symbol ++ "@trade") =
      some rw := by
  have hsome : (dictFind st.conns (lowerStr symbol ++ "@trade")).isSome = true := by
    rw [hmem]; rfl
  constructor
  · simp [start_trade_socket, _start_socket, hsome]
  · simp [start_trade_socket, _start_socket, hsome, hmem]

/-- Witness for claim C3's theorem: a manager already holding a
`bnbbtc@trade` session; a second start with a different handler returns the
same state and identifier. -/
theorem start_trade_socket_existing_noop_w :
    start_trade_socket
        { conns := [("bnbbtc@trade", ReconnectingWebsocket.init "bnbbtc@trade" (some 1) "ws/")],
          user_timer := false, user_listen_key := none, user_callback := none }
        "BNBBTC" 2 =
      ({ conns := [("bnbbtc@trade", ReconnectingWebsocket.init "bnbbtc@trade" (some 1) "ws/")],
         user_timer := false, user_listen_key := none, user_callback := none },
       lowerStr "BNBBTC" ++ "@trade") :=
  (start_trade_socket_existing_noop
    { conns := [("bnbbtc@trade", ReconnectingWebsocket.init "bnbbtc@trade" (some 1) "ws/")],
      user_timer := false, user_listen_key := none, user_callback := none }
    "BNBBTC" (ReconnectingWebsocket.init "bnbbtc@trade" (some 1) "ws/") 2 (by decide)).1

/-! ### Helper lemmas about the user-stream path -/

/-- `stop_socket` on the registered authenticated stream key: the session is
cancelled and deregistered, and `_stop_user_socket` cancels the renewal timer
(if set), revokes the key via `client.stream_close`, and clears the stored
key. -/
lemma stop_socket_user (st : BinanceSocketManager) (k : String)
    (rw : ReconnectingWebsocket)
    (hkey : st.user_listen_key = some k) (hlen : 60 ≤ k.length)
    (htake : k.take 60 = k) (hold : dictFind st.conns k = some rw) :
    stop_socket st k =
      ({ conns := dictErase st.conns k, user_timer := false,
         user_listen_key := none, user_callback := st.user_callback },
       { cancelled := [(k, rw.cancel)], revoked := [k],
         timerCancels := if st.user_timer then 1 else 0 }) := by
  simp only [stop_socket, hold]
  have hcond : 60 ≤ k.length ∧
      ({ st with conns := dictErase st.conns k } : BinanceSocketManager).user_listen_key
        = some (k.take 60) := ⟨hlen, by simp [hkey, htake]⟩
  rw [if_pos hcond]
  simp [_stop_user_socket, hkey, Eff.app]

/-- `_start_user_socket` from a state with a live authenticated session found
by the key scan: the old session is stopped (cancel + deregister + timer
cancel + key revocation), the new key and callback are stored, a fresh session
is registered under the new key, and the renewal timer is re-armed. -/
lemma start_user_socket_rotate (st : BinanceSocketManager) (k newKey : String)
    (rw : ReconnectingWebsocket) (cb : Option ℕ)
    (hkey : st.user_listen_key = some k) (hlen : 60 ≤ k.length)
    (htake : k.take 60 = k) (hfind : findUserConn st.conns k = some k)
    (hold : dictFind st.conns k = some rw)
    (hnew : dictFind (dictErase st.conns k) newKey = none) :
    _start_user_socket st newKey cb =
      ({ conns := dictErase st.conns k ++
           [(newKey, ReconnectingWebsocket.init newKey cb "ws/")],
         user_timer := true, user_listen_key := some newKey, user_callback := cb },
       { cancelled := [(k, rw.cancel)], revoked := [k],
         timerCancels := if st.user_timer then 1 else 0 },
       some newKey) := by
  simp only [_start_user_socket, hkey, hfind]
  rw [stop_socket_user st k rw hkey hlen htake hold]
  simp [_start_socket, hnew]

/-- Claim C2: when the renewal timer fires and the fresh listen key differs
from the stored one, `_keepalive_user_socket` performs exactly one stop+start
rotation: the old session is cancelled, deregistered and its key revoked, one
fresh session is registered under the new key with the identical stored
handler, the stored key is updated and the timer re-armed; when the fresh key
equals the stored one, only the timer is re-armed and nothing else changes. -/
theorem keepalive_rotation (st : BinanceSocketManager) (k fresh : String)
    (rw : ReconnectingWebsocket)
    (hkey : st.user_listen_key = some k) (hlen : 60 ≤ k.length)
    (htake : k.take 60 = k) (hfind : findUserConn st.conns k = some k)
    (hold : dictFind st.conns k = some rw)
    (hfreshm : dictFind st.conns fresh = none) (hne : fresh ≠ k) :
    _keepalive_user_socket st fresh =
      ({ conns := dictErase st.conns k ++
           [(fresh, ReconnectingWebsocket.init fresh st.user_callback "ws/")],
         user_timer := true, user_listen_key := some fresh,
         user_callback := st.user_callback },
       { cancelled := [(k, rw.cancel)], revoked := [k],
         timerCancels := if st.user_timer then 1 else 0 }) ∧
    dictFind (_keepalive_user_socket st fresh).1.conns fresh =
      some (ReconnectingWebsocket.init fresh st.user_callback "ws/") ∧
    dictFind (_keepalive_user_socket st fresh).1.conns k = none ∧
    (ReconnectingWebsocket.init fresh st.user_callback "ws/").coro = st.user_callback ∧
    _keepalive_user_socket st k = ({ st with user_timer := true }, Eff.empty) := by
  have hmain : _keepalive_user_socket st fresh =
      ({ conns := dictErase st.conns k ++
           [(fresh, ReconnectingWebsocket.init fresh st.user_callback "ws/")],
         user_timer := true, user_listen_key := some fresh,
         user_callback := st.user_callback },
       { cancelled := [(k, rw.cancel)], revoked := [k],
         timerCancels := if st.user_timer then 1 else 0 }) := by
    have hcond : some fresh ≠ st.user_listen_key := by
      rw [hkey]
      simpa using hne
    simp only [_keepalive_user_socket, if_pos hcond]
    rw [start_user_socket_rotate st k fresh rw st.user_callback hkey hlen htake hfind hold
      (dictFind_erase_none st.conns k fresh hfreshm)]
  refine ⟨hmain, ?_, ?_, rfl, ?_⟩
  · rw [hmain]
    rw [dictFind_append_r _ _ fresh (dictFind_erase_none st.conns k fresh hfreshm)]
    simp [dictFind]
  · rw [hmain]
    rw [dictFind_append_r _ _ k (dictFind_erase_self st.conns k)]
    simp [dictFind, hne]
  · simp [_keepalive_user_socket, hkey]

set_option maxRecDepth 4096 in
/-- Witness for claim C2's theorem at a concrete manager state holding one
authenticated session under a 60-character key, rotated to a different
60-character key. -/
theorem keepalive_rotation_w :
    _keepalive_user_socket
        { conns := [("aaaaaaaaaaaaaaaaaaaaaaaaaaaaaaaaaaaaaaaaaaaaaaaaaaaaaaaaaaaa",
            ReconnectingWebsocket.init
              "aaaaaaaaaaaaaaaaaaaaaaaaaaaaaaaaaaaaaaaaaaaaaaaaaaaaaaaaaaaa" (some 7) "ws/")],
          user_timer := true,
          user_listen_key := some "aaaaaaaaaaaaaaaaaaaaaaaaaaaaaaaaaaaaaaaaaaaaaaaaaaaaaaaaaaaa",
          user_callback := some 7 }
        "bbbbbbbbbbbbbbbbbbbbbbbbbbbbbbbbbbbbbbbbbbbbbbbbbbbbbbbbbbbb" =
      ({ conns := dictErase
            [("aaaaaaaaaaaaaaaaaaaaaaaaaaaaaaaaaaaaaaaaaaaaaaaaaaaaaaaaaaaa",
              ReconnectingWebsocket.init
                "aaaaaaaaaaaaaaaaaaaaaaaaaaaaaaaaaaaaaaaaaaaaaaaaaaaaaaaaaaaa" (some 7) "ws/")]
            "aaaaaaaaaaaaaaaaaaaaaaaaaaaaaaaaaaaaaaaaaaaaaaaaaaaaaaaaaaaa" ++
            [("bbbbbbbbbbbbbbbbbbbbbbbbbbbbbbbbbbbbbbbbbbbbbbbbbbbbbbbbbbbb",
              ReconnectingWebsocket.init
                "bbbbbbbbbbbbbbbbbbbbbbbbbbbbbbbbbbbbbbbbbbbbbbbbbbbbbbbbbbbb" (some 7) "ws/")],
         user_timer := true,
         user_listen_key := some "bbbbbbbbbbbbbbbbbbbbbbbbbbbbbbbbbbbbbbbbbbbbbbbbbbbbbbbbbbbb",
         user_callback := some 7 },
       { cancelled := [("aaaaaaaaaaaaaaaaaaaaaaaaaaaaaaaaaaaaaaaaaaaaaaaaaaaaaaaaaaaa",
           ReconnectingWebsocket.cancel
             (ReconnectingWebsocket.init
               "aaaaaaaaaaaaaaaaaaaaaaaaaaaaaaaaaaaaaaaaaaaaaaaaaaaaaaaaaaaa" (some 7) "ws/"))],
         revoked := ["aaaaaaaaaaaaaaaaaaaaaaaaaaaaaaaaaaaaaaaaaaaaaaaaaaaaaaaaaaaa"],
         timerCancels := if true then 1 else 0 }) :=
  (keepalive_rotation
    { conns := [("aaaaaaaaaaaaaaaaaaaaaaaaaaaaaaaaaaaaaaaaaaaaaaaaaaaaaaaaaaaa",
        ReconnectingWebsocket.init
          "aaaaaaaaaaaaaaaaaaaaaaaaaaaaaaaaaaaaaaaaaaaaaaaaaaaaaaaaaaaa" (some 7) "ws/")],
      user_timer := true,
      user_listen_key := some "aaaaaaaaaaaaaaaaaaaaaaaaaaaaaaaaaaaaaaaaaaaaaaaaaaaaaaaaaaaa",
      user_callback := some 7 }
    "aaaaaaaaaaaaaaaaaaaaaaaaaaaaaaaaaaaaaaaaaaaaaaaaaaaaaaaaaaaa"
    "bbbbbbbbbbbbbbbbbbbbbbbbbbbbbbbbbbbbbbbbbbbbbbbbbbbbbbbbbbbb"
    (ReconnectingWebsocket.init
      "aaaaaaaaaaaaaaaaaaaaaaaaaaaaaaaaaaaaaaaaaaaaaaaaaaaaaaaaaaaa" (some 7) "ws/")
    rfl (by decide) (by decide) (by decide) (by decide) (by decide) (by decide)).1

/-- Claim C10: unlike market-data starts, `_start_user_socket` while an
authenticated session is live is never a no-op: for every callback and every
new key — `hnew` holds in particular when the new key equals the stored one —
it cancels and deregisters the existing authenticated session, cancels the
renewal timer (when armed) and revokes the stored key via
`client.stream_close`, then registers a brand-new session (fresh counter,
no transport yet) under the new key and re-arms the timer. -/
theorem start_user_socket_never_noop (st : BinanceSocketManager) (k newKey : String)
    (rw : ReconnectingWebsocket) (cb : Option ℕ)
    (hkey : st.user_listen_key = some k) (hlen : 60 ≤ k.length)
    (htake : k.take 60 = k) (hfind : findUserConn st.conns k = some k)
    (hold : dictFind st.conns k = some rw)
    (hnew : dictFind (dictErase st.conns k) newKey = none) :
    _start_user_socket st newKey cb =
      ({ conns := dictErase st.conns k ++
           [(newKey, ReconnectingWebsocket.init newKey cb "ws/")],
         user_timer := true, user_listen_key := some newKey, user_callback := cb },
       { cancelled := [(k, rw.cancel)], revoked := [k],
         timerCancels := if st.user_timer then 1 else 0 },
       some newKey) ∧
    (ReconnectingWebsocket.init newKey cb "ws/").socketOpen = false ∧
    (ReconnectingWebsocket.init newKey cb "ws/").reconnects = 0 ∧
    (ReconnectingWebsocket.init newKey cb "ws/").connTask = true ∧
    (_start_user_socket st newKey cb).2.1.cancelled ≠ [] :=
  ⟨start_user_socket_rotate st k newKey rw cb hkey hlen htake hfind hold hnew,
   rfl, rfl, rfl, by
    rw [start_user_socket_rotate st k newKey rw cb hkey hlen htake hfind hold hnew]
    simp⟩

set_option maxRecDepth 4096 in
/-- Witness for claim C10's theorem with the new key EQUAL to the stored one:
the old session is still cancelled, the key still revoked, the timer still
cycled, and a brand-new session registered. -/
theorem start_user_socket_never_noop_w :
    _start_user_socket
        { conns := [("aaaaaaaaaaaaaaaaaaaaaaaaaaaaaaaaaaaaaaaaaaaaaaaaaaaaaaaaaaaa",
            ReconnectingWebsocket.init
              "aaaaaaaaaaaaaaaaaaaaaaaaaaaaaaaaaaaaaaaaaaaaaaaaaaaaaaaaaaaa" (some 9) "ws/")],
          user_timer := true,
          user_listen_key := some "aaaaaaaaaaaaaaaaaaaaaaaaaaaaaaaaaaaaaaaaaaaaaaaaaaaaaaaaaaaa",
          user_callback := some 9 }
        "aaaaaaaaaaaaaaaaaaaaaaaaaaaaaaaaaaaaaaaaaaaaaaaaaaaaaaaaaaaa" (some 9) =
      ({ conns := dictErase
            [("aaaaaaaaaaaaaaaaaaaaaaaaaaaaaaaaaaaaaaaaaaaaaaaaaaaaaaaaaaaa",
              ReconnectingWebsocket.init
                "aaaaaaaaaaaaaaaaaaaaaaaaaaaaaaaaaaaaaaaaaaaaaaaaaaaaaaaaaaaa" (some 9) "ws/")]
            "aaaaaaaaaaaaaaaaaaaaaaaaaaaaaaaaaaaaaaaaaaaaaaaaaaaaaaaaaaaa" ++
            [("aaaaaaaaaaaaaaaaaaaaaaaaaaaaaaaaaaaaaaaaaaaaaaaaaaaaaaaaaaaa",
              ReconnectingWebsocket.init
                "aaaaaaaaaaaaaaaaaaaaaaaaaaaaaaaaaaaaaaaaaaaaaaaaaaaaaaaaaaaa" (some 9) "ws/")],
         user_timer := true,
         user_listen_key := some "aaaaaaaaaaaaaaaaaaaaaaaaaaaaaaaaaaaaaaaaaaaaaaaaaaaaaaaaaaaa",
         user_callback := some 9 },
       { cancelled := [("aaaaaaaaaaaaaaaaaaaaaaaaaaaaaaaaaaaaaaaaaaaaaaaaaaaaaaaaaaaa",
           ReconnectingWebsocket.cancel
             (ReconnectingWebsocket.init
               "aaaaaaaaaaaaaaaaaaaaaaaaaaaaaaaaaaaaaaaaaaaaaaaaaaaaaaaaaaaa" (some 9) "ws/"))],
         revoked := ["aaaaaaaaaaaaaaaaaaaaaaaaaaaaaaaaaaaaaaaaaaaaaaaaaaaaaaaaaaaa"],
         timerCancels := if true then 1 else 0 },
       some "aaaaaaaaaaaaaaaaaaaaaaaaaaaaaaaaaaaaaaaaaaaaaaaaaaaaaaaaaaaa") :=
  (start_user_socket_never_noop
    { conns := [("aaaaaaaaaaaaaaaaaaaaaaaaaaaaaaaaaaaaaaaaaaaaaaaaaaaaaaaaaaaa",
        ReconnectingWebsocket.init
          "aaaaaaaaaaaaaaaaaaaaaaaaaaaaaaaaaaaaaaaaaaaaaaaaaaaaaaaaaaaa" (some 9) "ws/")],
      user_timer := true,
      user_listen_key := some "aaaaaaaaaaaaaaaaaaaaaaaaaaaaaaaaaaaaaaaaaaaaaaaaaaaaaaaaaaaa",
      user_callback := some 9 }
    "aaaaaaaaaaaaaaaaaaaaaaaaaaaaaaaaaaaaaaaaaaaaaaaaaaaaaaaaaaaa"
    "aaaaaaaaaaaaaaaaaaaaaaaaaaaaaaaaaaaaaaaaaaaaaaaaaaaaaaaaaaaa"
    (ReconnectingWebsocket.init
      "aaaaaaaaaaaaaaaaaaaaaaaaaaaaaaaaaaaaaaaaaaaaaaaaaaaaaaaaaaaa" (some 9) "ws/")
    (some 9) rfl (by decide) (by decide) (by decide) (by decide) (by decide)).1

/-- `_stop_user_socket` never touches the registry and cancels no session. -/
lemma stop_user_socket_conns (st : BinanceSocketManager) :
    (_stop_user_socket st).1.conns = st.conns ∧
    (_stop_user_socket st).2.cancelled = [] := by
  cases h : st.user_listen_key <;> simp [_stop_user_socket, h, Eff.empty]

/-- `stop_socket` on a registered key: whatever the user-stream branch does,
the registry loses exactly that key and exactly that session is cancelled. -/
lemma stop_socket_found (st : BinanceSocketManager) (a : String)
    (v : ReconnectingWebsocket) (h : dictFind st.conns a = some v) :
    (stop_socket st a).1.conns = dictErase st.conns a ∧
    (stop_socket st a).2.cancelled = [(a, v.cancel)] := by
  simp only [stop_socket, h]
  split_ifs with hc
  · constructor
    · exact (stop_user_socket_conns _).1
    · simp [Eff.app, (stop_user_socket_conns _).2]
  · exact ⟨rfl, rfl⟩

/-- Stopping every snapshotted key of a registry with distinct keys cancels
exactly the registered sessions (in order) and leaves the registry empty. -/
lemma stopAll_conns (l : List (String × ReconnectingWebsocket)) :
    ∀ st : BinanceSocketManager, st.conns = l → (l.map Prod.fst).Nodup →
      (stopAll st (l.map Prod.fst)).2.cancelled =
          l.map (fun p => (p.1, p.2.cancel)) ∧
      (stopAll st (l.map Prod.fst)).1.conns = [] := by
  induction l with
  | nil =>
      intro st hst _
      simp [stopAll, hst, Eff.empty]
  | cons p t ih =>
      obtain ⟨a, v⟩ := p
      intro st hst hnd
      have hfind : dictFind st.conns a = some v := by
        rw [hst]
        simp [dictFind]
      have h1 := stop_socket_found st a v hfind
      simp only [List.map_cons, List.nodup_cons] at hnd
      have ht : (stop_socket st a).1.conns = t := by
        rw [h1.1, hst]
        simp only [dictErase, if_pos rfl]
        exact dictErase_not_mem t a hnd.1
      have hIH := ih (stop_socket st a).1 ht hnd.2
      simp only [List.map_cons, stopAll]
      constructor
      · simp only [Eff.app, h1.2, hIH.1]
        rfl
      · exact hIH.2

/-- Claim C9: `close()` snapshots the registered identifiers and stops each:
afterwards the registry is empty and every previously registered session has
been cancelled, i.e. its transport is closed; and stopping an identifier that
is (no longer) registered is a harmless no-op. -/
theorem close_spec (st : BinanceSocketManager)
    (hnd : (st.conns.map Prod.fst).Nodup) :
    (close st).1.conns = [] ∧
    (close st).2.cancelled = st.conns.map (fun p => (p.1, p.2.cancel)) ∧
    (∀ q ∈ (close st).2.cancelled, q.2.socketOpen = false) ∧
    (∀ key, dictFind st.conns key = none → stop_socket st key = (st, Eff.empty)) := by
  have h := stopAll_conns st.conns st rfl hnd
  refine ⟨by simp [close], by simp [close, h.1], ?_, ?_⟩
  · intro q hq
    have hq2 : q ∈ st.conns.map (fun p => (p.1, p.2.cancel)) := by
      rw [← h.1]
      simpa [close] using hq
    obtain ⟨p, _, rfl⟩ := List.mem_map.mp hq2
    rfl
  · intro key hk
    simp [stop_socket, hk]

set_option maxRecDepth 4096 in
/-- Witness for claim C9's theorem: closing a manager holding a market stream
and an authenticated stream empties the registry and reports both sessions
cancelled. -/
theorem close_spec_w :
    (close
        { conns := [("bnbbtc@trade", ReconnectingWebsocket.init "bnbbtc@trade" (some 1) "ws/"),
            ("aaaaaaaaaaaaaaaaaaaaaaaaaaaaaaaaaaaaaaaaaaaaaaaaaaaaaaaaaaaa",
              ReconnectingWebsocket.init
                "aaaaaaaaaaaaaaaaaaaaaaaaaaaaaaaaaaaaaaaaaaaaaaaaaaaaaaaaaaaa" (some 2) "ws/")],
          user_timer := true,
          user_listen_key := some "aaaaaaaaaaaaaaaaaaaaaaaaaaaaaaaaaaaaaaaaaaaaaaaaaaaaaaaaaaaa",
          user_callback := some 2 }).1.conns = [] ∧
    (close
        { conns := [("bnbbtc@trade", ReconnectingWebsocket.init "bnbbtc@trade" (some 1) "ws/"),
            ("aaaaaaaaaaaaaaaaaaaaaaaaaaaaaaaaaaaaaaaaaaaaaaaaaaaaaaaaaaaa",
              ReconnectingWebsocket.init
                "aaaaaaaaaaaaaaaaaaaaaaaaaaaaaaaaaaaaaaaaaaaaaaaaaaaaaaaaaaaa" (some 2) "ws/")],
          user_timer := true,
          user_listen_key := some "aaaaaaaaaaaaaaaaaaaaaaaaaaaaaaaaaaaaaaaaaaaaaaaaaaaaaaaaaaaa",
          user_callback := some 2 }).2.cancelled =
      [("bnbbtc@trade", ReconnectingWebsocket.init "bnbbtc@trade" (some 1) "ws/"),
        ("aaaaaaaaaaaaaaaaaaaaaaaaaaaaaaaaaaaaaaaaaaaaaaaaaaaaaaaaaaaa",
          ReconnectingWebsocket.init
            "aaaaaaaaaaaaaaaaaaaaaaaaaaaaaaaaaaaaaaaaaaaaaaaaaaaaaaaaaaaa"
            (some 2) "ws/")].map (fun p => (p.1, p.2.cancel)) :=
  ⟨(close_spec
      { conns := [("bnbbtc@trade", ReconnectingWebsocket.init "bnbbtc@trade" (some 1) "ws/"),
          ("aaaaaaaaaaaaaaaaaaaaaaaaaaaaaaaaaaaaaaaaaaaaaaaaaaaaaaaaaaaa",
            ReconnectingWebsocket.init
              "aaaaaaaaaaaaaaaaaaaaaaaaaaaaaaaaaaaaaaaaaaaaaaaaaaaaaaaaaaaa" (some 2) "ws/")],
        user_timer := true,
        user_listen_key := some "aaaaaaaaaaaaaaaaaaaaaaaaaaaaaaaaaaaaaaaaaaaaaaaaaaaaaaaaaaaa",
        user_callback := some 2 } (by decide)).1,
   (close_spec
      { conns := [("bnbbtc@trade", ReconnectingWebsocket.init "bnbbtc@trade" (some 1) "ws/"),
          ("aaaaaaaaaaaaaaaaaaaaaaaaaaaaaaaaaaaaaaaaaaaaaaaaaaaaaaaaaaaa",
            ReconnectingWebsocket.init
              "aaaaaaaaaaaaaaaaaaaaaaaaaaaaaaaaaaaaaaaaaaaaaaaaaaaaaaaaaaaa" (some 2) "ws/")],
        user_timer := true,
        user_listen_key := some "aaaaaaaaaaaaaaaaaaaaaaaaaaaaaaaaaaaaaaaaaaaaaaaaaaaaaaaaaaaa",
        user_callback := some 2 } (by decide)).2.1⟩
